import Mathlib

/-
Verification of the stack-pinning subsystem of the magnus repository:
a shallow embedding of src/pin_convert.rs, src/stack_pinned.rs and
src/pinned_method.rs, with side effects on the garbage collector's root
registry (gc::register_address / gc::unregister_address), the transition
into the invoked native function, and the raising of a host exception all
recorded as events in a trace.
-/

namespace Magnus

/-- A raw handle (magnus Value): an opaque reference to an object owned by
the managed runtime's heap.  Only its identity matters to the core, so it
is modelled as a wrapped natural number. -/
structure Value where
  addr : Nat
deriving DecidableEq, Repr

/-- Modelled from the spec: the error type of the conversion facility and
of the dispatch boundary (src/error.rs is not part of the given sources).
TypeMismatch errors come from conversion, fromPanic re-expresses a
captured native fault as a runtime exception (Error::from_panic). -/
inductive Error where
  | typeMismatch (msg : String)
  | fromPanic (payload : String)
deriving DecidableEq, Repr

/-- Observable events of the subsystem: calls into the Root Registry
(gc::register_address / gc::unregister_address, identified by the
registered address), the transition into the Invoking state (the call of
the wrapped native function), and the raising of a host exception
(error::raise). -/
inductive Event where
  | register (addr : Nat)
  | unregister (addr : Nat)
  | invoke
  | raiseExc
deriving DecidableEq, Repr

/-- Outcome of running a Rust computation that may unwind: either a normal
result or a native fault (panic) carrying its payload. -/
inductive PanicResult (α : Type) where
  | ok (a : α)
  | panicked (payload : String)
deriving DecidableEq, Repr

/- ----------------------------------------------------------------
   src/pin_convert.rs : struct StackPinned<T>, TryConvertPinned,
   into_box_value, pin_to_box
   ---------------------------------------------------------------- -/

/-- pin_convert.rs struct StackPinned<T>: a PhantomPinned wrapper owning
exactly one value.  The PhantomPinned marker has no observable content, so
only the value field is modelled.  Constructing it has no side effect. -/
structure StackPinned (T : Type) where
  value : T
deriving DecidableEq, Repr

/-- StackPinned::new: wrap a value, taking ownership.  No side effect. -/
def StackPinned.new {T : Type} (value : T) : StackPinned T :=
  ⟨value⟩

/-- StackPinned::get_value_ref on Pin of a shared reference: a field
projection to the contained value. -/
def StackPinned.get_value_ref {T : Type} (sp : StackPinned T) : T :=
  sp.value

/-- StackPinned::get_value_mut on Pin of a mutable reference: a field
projection to the contained value. -/
def StackPinned.get_value_mut {T : Type} (sp : StackPinned T) : T :=
  sp.value

/-- StackPinned::as_value_ref: view the contained value as a raw Value via
ReprValue::as_value.  The trait method as_value of the (external)
ReprValue trait is passed explicitly as a function. -/
def StackPinned.as_value_ref {T : Type} (as_value : T → Value)
    (sp : StackPinned T) : Value :=
  as_value sp.value

/-- Modelled from the spec: the Rooted-Box facility (BoxValue in
src/value.rs, not part of the given sources) is a heap allocation that is
itself a GC root for its whole lifetime; only the contained value is
modelled here. -/
structure BoxValue (T : Type) where
  value : T
deriving DecidableEq, Repr

/-- Modelled from the spec: BoxValue::new takes ownership of a value and
roots it on the heap. -/
def BoxValue.new {T : Type} (value : T) : BoxValue T :=
  ⟨value⟩

/-- StackPinned::into_box_value: read the contained value out of the
pinned wrapper by raw copy (std::ptr::read of the value field) and hand it
to BoxValue::new. -/
def StackPinned.into_box_value {T : Type} (sp : StackPinned T) : BoxValue T :=
  BoxValue.new sp.value

/-- Pin of Box (a heap-resident, pinned allocation), as produced by
Box::pin.  Only the pointee is modelled. -/
structure PinBox (T : Type) where
  inner : T
deriving DecidableEq, Repr

/-- Box::pin: allocate on the heap and pin. -/
def PinBox.pin {T : Type} (inner : T) : PinBox T :=
  ⟨inner⟩

/-- TryConvertPinned::try_convert_pinned as implemented for T: TryConvert
plus ReprValue.  The non-pinned conversion facility T::try_convert (in
src/try_convert.rs, external to the core) is passed explicitly as the
function conv.  The trace component records Root Registry activity: the
implementation performs none. -/
def try_convert_pinned {T : Type} (conv : Value → Except Error T)
    (val : Value) : Except Error (PinBox (StackPinned T)) × List Event :=
  match conv val with
  | .error e => (.error e, [])
  | .ok converted => (.ok (PinBox.pin (StackPinned.new converted)), [])

/-- Spec-side description of Pinned Conversion, written from the spec's
words: the existing non-pinned conversion, followed on success by
heap-pinned wrapping of exactly the converted value, with no registration
side effect. -/
def spec_pinned_conversion {T : Type} (conv : Value → Except Error T)
    (val : Value) : Except Error (PinBox (StackPinned T)) × List Event :=
  (Except.map (fun t => PinBox.pin (StackPinned.new t)) (conv val), [])

/-- pin_convert::pin_to_box: safe wrapper moving the pinned value of an
owned Pin of Box into a BoxValue via into_box_value. -/
def pin_to_box {T : Type} (pinned : PinBox (StackPinned T)) : BoxValue T :=
  pinned.inner.into_box_value

/- ----------------------------------------------------------------
   src/stack_pinned.rs : trait StackPinned (register / deregister),
   PinGuard
   ---------------------------------------------------------------- -/

/-- stack_pinned.rs trait StackPinned (implemented for every ReprValue):
register calls gc::register_address on the referent's address. -/
def gcRegister (addr : Nat) : List Event :=
  [Event.register addr]

/-- stack_pinned.rs trait StackPinned: deregister calls
gc::unregister_address on the referent's address. -/
def gcDeregister (addr : Nat) : List Event :=
  [Event.unregister addr]

/-- stack_pinned.rs struct PinGuard: holds a Pin of a mutable reference to
the guarded value.  The referent is modelled by its address (the location
passed to the Root Registry) together with the value behind the pin. -/
structure PinGuard (T : Type) where
  addr : Nat
  pin : T
deriving DecidableEq, Repr

/-- PinGuard::new (requires T: Unpin): pin the reference with Pin::new,
register the referent's address, store the pin.  The returned trace is the
Root Registry activity of construction. -/
def PinGuard.new {T : Type} (addr : Nat) (value : T) :
    PinGuard T × List Event :=
  (⟨addr, value⟩, gcRegister addr)

/-- PinGuard::new_unchecked: pin the reference with Pin::new_unchecked
(the caller asserts the referent will not move), register the referent's
address, store the pin. -/
def PinGuard.new_unchecked {T : Type} (addr : Nat) (value : T) :
    PinGuard T × List Event :=
  (⟨addr, value⟩, gcRegister addr)

/-- PinGuard::as_pin: access the pinned value. -/
def PinGuard.as_pin {T : Type} (g : PinGuard T) : T :=
  g.pin

/-- Deref for PinGuard: read access to the referent. -/
def PinGuard.deref {T : Type} (g : PinGuard T) : T :=
  g.pin

/-- DerefMut for PinGuard: write access to the referent (the referent
itself, never the ability to replace the guard). -/
def PinGuard.deref_mut {T : Type} (g : PinGuard T) : T :=
  g.pin

/-- Drop for PinGuard: deregister the address of the held pin. -/
def PinGuard.drop {T : Type} (g : PinGuard T) : List Event :=
  gcDeregister g.addr

/-- The RAII scope of a PinGuard: construct the guard (registering), run
the body, and run Drop at scope exit.  Rust runs Drop on every exit path,
normal return and unwind alike, so both cases of the body's outcome append
the guard's drop trace. -/
def PinGuard.scope {T α : Type} (addr : Nat) (value : T)
    (body : PanicResult α × List Event) : PanicResult α × List Event :=
  match PinGuard.new addr value with
  | (g, tr0) =>
    match body with
    | (.ok a, tr) => (.ok a, tr0 ++ tr ++ g.drop)
    | (.panicked p, tr) => (.panicked p, tr0 ++ tr ++ g.drop)

/- ----------------------------------------------------------------
   src/pinned_method.rs : PinnedMethod1, arity, pinned_method!
   ---------------------------------------------------------------- -/

/-- PinnedMethod1::call_convert_value_pinned.  The conversions
TryConvert::try_convert for the receiver type and the argument type are
passed explicitly (convSelf, convArg); f is the wrapped native function
composed with ReturnValue::into_return_value, returning a Result of Value
and Error, possibly panicking, and emitting its own trace.  The source
converts the receiver (? operator), converts the argument (? operator),
wraps the argument in StackPinned::new, pins it with Pin::new_unchecked,
and calls f; the transition into the Invoking state is recorded as the
invoke event.  Conversions touch no Root Registry state (in the sources,
gc::register_address is reached only from PinGuard construction). -/
def call_convert_value_pinned {RbSelf T : Type}
    (convSelf : Value → Except Error RbSelf)
    (convArg : Value → Except Error T)
    (f : RbSelf → StackPinned T → PanicResult (Except Error Value) × List Event)
    (rb_self arg : Value) : PanicResult (Except Error Value) × List Event :=
  match convSelf rb_self with
  | .error e => (.ok (.error e), [])
  | .ok converted_self =>
    match convArg arg with
    | .error e => (.ok (.error e), [])
    | .ok converted_arg =>
      match f converted_self (StackPinned.new converted_arg) with
      | (r, tr) => (r, Event.invoke :: tr)

/-- std::panic::catch_unwind: a panicking computation's payload becomes
the error of a Result; a normal result passes through. -/
def catch_unwind {α : Type} (c : PanicResult α × List Event) :
    Except String α × List Event :=
  match c with
  | (.ok a, tr) => (.ok a, tr)
  | (.panicked p, tr) => (.error p, tr)

/-- The match on the catch_unwind result in call_handle_error_pinned:
Ok(v) passes the inner Result through, Err(e) becomes
Err(Error::from_panic(e)). -/
def unwind_to_error : Except String (Except Error Value) → Except Error Value
  | .ok v => v
  | .error e => .error (Error.fromPanic e)

/-- What call_handle_error_pinned hands back across the foreign-call
boundary.  The domain keeps a native, unmediated unwind as a possible
outcome so that its absence is a property of the definition, not of the
type. -/
inductive BoundaryOutcome where
  | returned (v : Value)
  | raised (e : Error)
  | nativeUnwind (payload : String)
deriving DecidableEq, Repr

/-- An outcome is mediated when it crosses the boundary as a returned
Value or as a host exception, never as a native unwind. -/
def BoundaryOutcome.mediated : BoundaryOutcome → Bool
  | .returned _ => true
  | .raised _ => true
  | .nativeUnwind _ => false

/-- PinnedMethod1::call_handle_error_pinned: run
call_convert_value_pinned under std::panic::catch_unwind, turn a captured
panic into Error::from_panic, then either return the Value or raise the
error as a host exception (error::raise, recorded as the raiseExc
event). -/
def call_handle_error_pinned {RbSelf T : Type}
    (convSelf : Value → Except Error RbSelf)
    (convArg : Value → Except Error T)
    (f : RbSelf → StackPinned T → PanicResult (Except Error Value) × List Event)
    (rb_self arg : Value) : BoundaryOutcome × List Event :=
  match catch_unwind (call_convert_value_pinned convSelf convArg f rb_self arg) with
  | (caught, tr) =>
    match unwind_to_error caught with
    | .ok v => (.returned v, tr)
    | .error e => (.raised e, tr ++ [Event.raiseExc])

/-- private::PinnedMethod::arity for the function-pointer type
unsafe extern fn(Value, Value) -> Value: the declared arity is 1. -/
def PinnedMethodPtr.arity : Int :=
  1

/-- Build-time result of expanding the pinned_method! macro at a given
arity literal. -/
inductive ExpandResult where
  | fnPtr
  | rejected (msg : String)
deriving DecidableEq, Repr

/-- The arms of the pinned_method! macro: the literal 1 expands to the
extern function pointer, every other arity expands to compile_error!. -/
def pinned_method_expand (arity : Nat) : ExpandResult :=
  if arity = 1 then
    .fnPtr
  else
    .rejected ("pinned_method! currently only supports arity 1")

/- ----------------------------------------------------------------
   Trace predicates
   ---------------------------------------------------------------- -/

/-- Whether an event is a Root Registry registration. -/
def Event.isRegister : Event → Bool
  | .register _ => true
  | _ => false

/-- Whether a trace contains a given event. -/
def containsEvent (y : Event) : List Event → Bool
  | [] => false
  | e :: tl => decide (e = y) || containsEvent y tl

/-- Whether some occurrence of x strictly precedes some occurrence of y in
a trace. -/
def occursBeforeB (x y : Event) : List Event → Bool
  | [] => false
  | e :: tl => (decide (e = x) && containsEvent y tl) || occursBeforeB x y tl

/-- Whether some registration event occurs strictly before the first
transition into the Invoking state. -/
def hasRegisterBeforeInvoke (tr : List Event) : Bool :=
  (tr.takeWhile (fun e => decide (e ≠ Event.invoke))).any Event.isRegister

/- ----------------------------------------------------------------
   Concrete instances used by witnesses and counterexamples
   ---------------------------------------------------------------- -/

/-- A conversion that always succeeds, returning the handle itself. -/
def idConv : Value → Except Error Value :=
  fun v => .ok v

/-- A conversion that always fails with a type mismatch. -/
def failConv : Value → Except Error Value :=
  fun _ => .error (Error.typeMismatch ("no implicit conversion"))

/-- A wrapped function that returns a fixed Value and emits no events. -/
def constFn : Value → StackPinned Value →
    PanicResult (Except Error Value) × List Event :=
  fun _ _ => (.ok (.ok ⟨0⟩), [])

/-- A wrapped function that panics at once. -/
def panicFn : Value → StackPinned Value →
    PanicResult (Except Error Value) × List Event :=
  fun _ _ => (.panicked ("boom"), [])

/- ----------------------------------------------------------------
   Helper lemmas
   ---------------------------------------------------------------- -/

/-- In any trace that ends with the two events x then y, some occurrence
of x strictly precedes some occurrence of y. -/
theorem occursBeforeB_append_pair (l : List Event) (x y : Event) :
    occursBeforeB x y (l ++ [x, y]) = true := by
  induction l with
  | nil => simp [occursBeforeB, containsEvent]
  | cons e tl ih => simp [occursBeforeB, ih]

/- ----------------------------------------------------------------
   Claims
   ---------------------------------------------------------------- -/

/-- Claim C2 (confirmed): over the whole RAII scope of a PinGuard,
register_address is called exactly once, at construction, as the first
event the guard contributes, and unregister_address exactly once, at
scope exit, as the last event, with the same address — on both exit
paths, normal return and unwind; construction emits exactly the one
registration and Drop exactly the one matching deregistration. -/
theorem claim_C2 {T α : Type} (addr : Nat) (value : T)
    (r : PanicResult α) (tr : List Event) :
    PinGuard.scope addr value (r, tr) =
      (r, Event.register addr :: (tr ++ [Event.unregister addr])) ∧
    (PinGuard.new addr value).2 = [Event.register addr] ∧
    PinGuard.drop (PinGuard.new addr value).1 = [Event.unregister addr] ∧
    ((PinGuard.new (T := T) addr value).1).addr = addr := by
  refine ⟨?_, rfl, rfl, rfl⟩
  cases r <;> rfl

/-- Claim C3 (confirmed): for every behaviour of the wrapped function —
normal return, conversion error, or native fault — call_handle_error_pinned
crosses the foreign-call boundary either as a returned Value or as a
raised host exception, never as a native unwind. -/
theorem claim_C3 {RbSelf T : Type} (convSelf : Value → Except Error RbSelf)
    (convArg : Value → Except Error T)
    (f : RbSelf → StackPinned T → PanicResult (Except Error Value) × List Event)
    (rb_self arg : Value) :
    (call_handle_error_pinned convSelf convArg f rb_self arg).1.mediated = true := by
  unfold call_handle_error_pinned
  rcases hc : call_convert_value_pinned convSelf convArg f rb_self arg with ⟨r, tr⟩
  rcases r with v | p
  · rcases v with v | e <;> simp [catch_unwind, unwind_to_error, BoundaryOutcome.mediated]
  · simp [catch_unwind, unwind_to_error, BoundaryOutcome.mediated]

/-- Claim C5 (confirmed): try_convert_pinned is exactly the existing
non-pinned conversion followed by heap-pinned wrapping — it succeeds iff
try_convert succeeds, on success the heap-pinned wrapper contains exactly
the converted value, on failure the same error is returned, and the Root
Registry is never touched. -/
theorem claim_C5 {T : Type} (conv : Value → Except Error T) (val : Value) :
    try_convert_pinned conv val = spec_pinned_conversion conv val := by
  unfold try_convert_pinned spec_pinned_conversion
  cases conv val <;> rfl

/-- Claim C6 (confirmed): wrapping a value in an Immovable Wrapper and
moving it out via into_box_value (or the safe pin_to_box) yields a Rooted
Box containing exactly the originally wrapped value. -/
theorem claim_C6 {T : Type} (v : T) :
    (StackPinned.into_box_value (StackPinned.new v)).value = v ∧
    (pin_to_box (PinBox.pin (StackPinned.new v))).value = v :=
  ⟨rfl, rfl⟩

/-- Claim C9 (confirmed): get_value_ref on a pinned reference to
StackPinned::new(v) returns exactly v, and as_value_ref returns v viewed
through ReprValue::as_value, the wrapper left in place. -/
theorem claim_C9 {T : Type} (as_value : T → Value) (v : T) :
    StackPinned.get_value_ref (StackPinned.new v) = v ∧
    StackPinned.as_value_ref as_value (StackPinned.new v) = as_value v :=
  ⟨rfl, rfl⟩

/-- Claim C10 (confirmed): PinGuard::new and PinGuard::new_unchecked are
observationally equivalent — they build identical guards and emit the
identical single registration, so as_pin, Deref, DerefMut and Drop agree;
the safe constructor is the unchecked one with the non-relocatability
precondition discharged statically (T: Unpin lets Pin::new stand in for
Pin::new_unchecked). -/
theorem claim_C10 {T : Type} (addr : Nat) (value : T) :
    PinGuard.new addr value = PinGuard.new_unchecked addr value ∧
    PinGuard.as_pin (PinGuard.new addr value).1 =
      PinGuard.as_pin (PinGuard.new_unchecked addr value).1 ∧
    PinGuard.deref (PinGuard.new addr value).1 =
      PinGuard.deref (PinGuard.new_unchecked addr value).1 ∧
    PinGuard.deref_mut (PinGuard.new addr value).1 =
      PinGuard.deref_mut (PinGuard.new_unchecked addr value).1 ∧
    PinGuard.drop (PinGuard.new addr value).1 =
      PinGuard.drop (PinGuard.new_unchecked addr value).1 ∧
    (PinGuard.new addr value).2 = [Event.register addr] :=
  ⟨rfl, rfl, rfl, rfl, rfl, rfl⟩

/-- Claim C1, counterexample: a dispatch in which both conversions succeed
(the receiver and argument conversions are the always-successful identity
conversion) whose trace contains no registration at all before the
Invoking transition — refuting the claim that the pinned argument's
address is registered with the Root Registry before the wrapped native
function is invoked. -/
theorem claim_C1_counterexample :
    idConv ⟨1⟩ = .ok ⟨1⟩ ∧ idConv ⟨2⟩ = .ok ⟨2⟩ ∧
    (call_convert_value_pinned idConv idConv constFn ⟨1⟩ ⟨2⟩).2 = [Event.invoke] ∧
    hasRegisterBeforeInvoke
      (call_convert_value_pinned idConv idConv constFn ⟨1⟩ ⟨2⟩).2 = false :=
  ⟨rfl, rfl, rfl, rfl⟩

/-- Claim C1 (corrected): for every call of call_convert_value_pinned in
which both conversions succeed, the converted argument is wrapped in a
StackPinned and pinned, and the wrapped function is invoked on it, but no
Root Registry registration precedes the invocation — the dispatch path
performs no gc::register_address call (registration exists only in
PinGuard, which this path never constructs). -/
theorem claim_C1_amended {RbSelf T : Type}
    (convSelf : Value → Except Error RbSelf)
    (convArg : Value → Except Error T)
    (f : RbSelf → StackPinned T → PanicResult (Except Error Value) × List Event)
    (s a : Value) (cs : RbSelf) (ca : T)
    (hs : convSelf s = .ok cs) (ha : convArg a = .ok ca) :
    call_convert_value_pinned convSelf convArg f s a =
      ((f cs (StackPinned.new ca)).1,
        Event.invoke :: (f cs (StackPinned.new ca)).2) ∧
    hasRegisterBeforeInvoke
      (call_convert_value_pinned convSelf convArg f s a).2 = false := by
  have h1 : call_convert_value_pinned convSelf convArg f s a =
      ((f cs (StackPinned.new ca)).1,
        Event.invoke :: (f cs (StackPinned.new ca)).2) := by
    unfold call_convert_value_pinned
    rw [hs, ha]
  refine ⟨h1, ?_⟩
  rw [h1]
  simp [hasRegisterBeforeInvoke, List.takeWhile_cons]

/-- Witness for the amended claim C1 at a concrete successful dispatch. -/
theorem claim_C1_witness :
    call_convert_value_pinned idConv idConv constFn ⟨1⟩ ⟨2⟩ =
      ((constFn ⟨1⟩ (StackPinned.new ⟨2⟩)).1,
        Event.invoke :: (constFn ⟨1⟩ (StackPinned.new ⟨2⟩)).2) ∧
    hasRegisterBeforeInvoke
      (call_convert_value_pinned idConv idConv constFn ⟨1⟩ ⟨2⟩).2 = false :=
  claim_C1_amended idConv idConv constFn ⟨1⟩ ⟨2⟩ ⟨1⟩ ⟨2⟩ rfl rfl

/-- Claim C4 (confirmed): when receiver conversion fails, dispatch returns
exactly that error with an empty trace — zero registrations, no pinning,
no invocation — and its result does not depend on the argument conversion
or on the wrapped function, which are therefore never attempted. -/
theorem claim_C4 {RbSelf T : Type} (convSelf : Value → Except Error RbSelf)
    (convArg convArg' : Value → Except Error T)
    (f f' : RbSelf → StackPinned T → PanicResult (Except Error Value) × List Event)
    (s a : Value) (e : Error) (hs : convSelf s = .error e) :
    call_convert_value_pinned convSelf convArg f s a = (.ok (.error e), []) ∧
    call_convert_value_pinned convSelf convArg f s a =
      call_convert_value_pinned convSelf convArg' f' s a := by
  have h1 : ∀ (cA : Value → Except Error T)
      (g : RbSelf → StackPinned T → PanicResult (Except Error Value) × List Event),
      call_convert_value_pinned convSelf cA g s a = (.ok (.error e), []) := by
    intro cA g
    unfold call_convert_value_pinned
    rw [hs]
  exact ⟨h1 convArg f, (h1 convArg f).trans (h1 convArg' f').symm⟩

/-- Witness for claim C4 at a concrete failing receiver conversion:
a TypeMismatch receiver makes the dispatch return that error with an empty
trace, identically for two different argument conversions and bodies. -/
theorem claim_C4_witness :
    call_convert_value_pinned failConv idConv constFn ⟨1⟩ ⟨2⟩ =
      (.ok (.error (Error.typeMismatch ("no implicit conversion"))), []) ∧
    call_convert_value_pinned failConv idConv constFn ⟨1⟩ ⟨2⟩ =
      call_convert_value_pinned failConv failConv panicFn ⟨1⟩ ⟨2⟩ :=
  claim_C4 failConv idConv failConv constFn panicFn ⟨1⟩ ⟨2⟩
    (Error.typeMismatch ("no implicit conversion")) rfl

/-- Claim C7 (confirmed): when the wrapped function panics after having
constructed a PinGuard in its frame, the guard's unregister_address runs
during the unwind, before call_handle_error_pinned raises the translated
host exception: the full boundary trace is the invocation, the guard's
registration, the body's events, then the guard's deregistration and only
then the raise — so the deregistration strictly precedes the raise. -/
theorem claim_C7 {RbSelf T U : Type} (convSelf : Value → Except Error RbSelf)
    (convArg : Value → Except Error T) (s a : Value) (cs : RbSelf) (ca : T)
    (addr : Nat) (pv : U) (p : String) (btr : List Event)
    (hs : convSelf s = .ok cs) (ha : convArg a = .ok ca) :
    call_handle_error_pinned convSelf convArg
        (fun _ _ => PinGuard.scope addr pv (.panicked p, btr)) s a =
      (.raised (Error.fromPanic p),
        Event.invoke :: Event.register addr ::
          (btr ++ [Event.unregister addr, Event.raiseExc])) ∧
    occursBeforeB (Event.unregister addr) Event.raiseExc
      (call_handle_error_pinned convSelf convArg
        (fun _ _ => PinGuard.scope addr pv (.panicked p, btr)) s a).2 = true := by
  have h1 : call_handle_error_pinned convSelf convArg
      (fun _ _ => PinGuard.scope addr pv (.panicked p, btr)) s a =
      (.raised (Error.fromPanic p),
        Event.invoke :: Event.register addr ::
          (btr ++ [Event.unregister addr, Event.raiseExc])) := by
    unfold call_handle_error_pinned call_convert_value_pinned
    rw [hs, ha]
    simp [PinGuard.scope, PinGuard.new, PinGuard.drop, gcRegister, gcDeregister,
      catch_unwind, unwind_to_error, List.append_assoc]
  refine ⟨h1, ?_⟩
  rw [h1]
  exact occursBeforeB_append_pair (Event.invoke :: Event.register addr :: btr)
    (Event.unregister addr) Event.raiseExc

/-- Witness for claim C7 at a concrete panicking body guarded by a
PinGuard at address 5. -/
theorem claim_C7_witness :
    call_handle_error_pinned idConv idConv
        (fun _ _ => PinGuard.scope 5 (Value.mk 3) (.panicked ("boom"), [])) ⟨1⟩ ⟨2⟩ =
      (.raised (Error.fromPanic ("boom")),
        Event.invoke :: Event.register 5 ::
          ([] ++ [Event.unregister 5, Event.raiseExc])) ∧
    occursBeforeB (Event.unregister 5) Event.raiseExc
      (call_handle_error_pinned idConv idConv
        (fun _ _ => PinGuard.scope 5 (Value.mk 3) (.panicked ("boom"), [])) ⟨1⟩ ⟨2⟩).2 = true :=
  claim_C7 idConv idConv ⟨1⟩ ⟨2⟩ ⟨1⟩ ⟨2⟩ 5 (Value.mk 3) ("boom") [] rfl rfl

/-- Claim C8 (confirmed): the declared arity of the registered
function-pointer type is exactly 1, the pinned_method! macro at arity
literal 1 expands to the extern function pointer, and at every other
arity it expands to a build-time rejection (compile_error!), never a
runtime case. -/
theorem claim_C8 (n : Nat) (h : n ≠ 1) :
    PinnedMethodPtr.arity = 1 ∧
    pinned_method_expand 1 = .fnPtr ∧
    pinned_method_expand n =
      .rejected ("pinned_method! currently only supports arity 1") := by
  refine ⟨rfl, rfl, ?_⟩
  unfold pinned_method_expand
  rw [if_neg h]

/-- Witness for claim C8 at the concrete rejected arity 2. -/
theorem claim_C8_witness :
    PinnedMethodPtr.arity = 1 ∧
    pinned_method_expand 1 = .fnPtr ∧
    pinned_method_expand 2 =
      .rejected ("pinned_method! currently only supports arity 1") :=
  claim_C8 2 (by decide)

end Magnus
